import Mathlib

set_option autoImplicit false

/-!
Shallow embedding of `src/app/backend/src/transactions/horizon.service.ts`
(the `HorizonService` class of the QiuckEx backend): result cache, backoff
tracker, bounded-retry fetch engine, record normalization and error
classification, together with proofs about the behaviour of `getPayments`.
-/

namespace QiuckEx

deriving instance DecidableEq for Except

/-- Service constant `maxRetries = 3` from the `HorizonService` class fields. -/
def maxRetries : Nat := 3

/-- Service constant `baseDelay = 50` (milliseconds). -/
def baseDelay : Nat := 50

/-- Service constant `maxDelay = 30000` (milliseconds). -/
def maxDelay : Nat := 30000

/-- TTL of the backoff LRU cache (constructor argument `ttl: 300000`). -/
def backoffTtl : Nat := 300000

/-- Source `calculateDelay`: `Math.min(baseDelay * 2^(attempt-1), maxDelay)`;
the source comment reads "Deterministic, no jitter". -/
def calculateDelay (attempt : Nat) : Nat :=
  min (baseDelay * 2 ^ (attempt - 1)) maxDelay

/-- Modelled from the spec: the full-jitter inter-attempt sleep the spec
describes — the computed exponential delay plus a uniformly drawn extra
delay `draw` with `0 ≤ draw ≤` that computed delay. The source contains no
such jitter term; this definition exists only to compare the spec's words
with the code's deterministic sleep. -/
def specFullJitterSleep (attempt draw : Nat) : Nat :=
  calculateDelay attempt + draw

/-- Raw Horizon operation record, restricted to the fields the service reads.
`asset_type` is optional, modelling the `'asset_type' in payment` guard;
`memoLookup` is the outcome of `payment.transaction()`: `none` when that call
throws, otherwise the (possibly absent) memo of the owning transaction. -/
structure RawRecord where
  type : String
  amount : String
  asset_type : Option String
  asset_code : String
  asset_issuer : String
  created_at : String
  transaction_hash : String
  paging_token : String
  memoLookup : Option (Option String)
  deriving Repr, DecidableEq

/-- Source `TransactionItemDto`. -/
structure TransactionItemDto where
  amount : String
  asset : String
  memo : Option String
  timestamp : String
  txHash : String
  pagingToken : String
  deriving Repr, DecidableEq

/-- Source `TransactionResponseDto`. -/
structure TransactionResponseDto where
  items : List TransactionItemDto
  nextCursor : Option String
  deriving Repr, DecidableEq

/-- Payment-kind test from the `records.filter` call in
`fetchFromHorizonWithRetry`. -/
def isPaymentRecord (r : RawRecord) : Bool :=
  r.type == "payment" || r.type == "path_payment_strict_receive" ||
    r.type == "path_payment_strict_send"

/-- Asset resolution for one retained record: `'XLM'` unless `asset_type` is
present and different from `'native'`, in which case
`asset_code:asset_issuer`. -/
def resolveAsset (r : RawRecord) : String :=
  match r.asset_type with
  | some t =>
    if t != "native" then r.asset_code ++ ":" ++ r.asset_issuer else ("XLM")
  | none => "XLM"

/-- Mapping of one retained record to a `TransactionItemDto`, including the
try/catch around the memo lookup (a failed lookup leaves `memo` absent). -/
def toItem (r : RawRecord) : TransactionItemDto :=
  { amount := r.amount
    asset := resolveAsset r
    memo := match r.memoLookup with
      | some m => m
      | none => none
    timestamp := r.created_at
    txHash := r.transaction_hash
    pagingToken := r.paging_token }

/-- Successful-page processing inside `fetchFromHorizonWithRetry`: keep payment
kinds, build items, apply the optional exact asset filter, and derive
`nextCursor` from the last raw (pre-filter) record of the page. The filter
guard is the JS truthiness test `asset ? items.filter(...) : items`: an
absent filter and the falsy empty string both perform no filtering. -/
def normalizeRecords (records : List RawRecord) (asset : Option String) :
    TransactionResponseDto :=
  let payments := records.filter isPaymentRecord
  let items := payments.map toItem
  let filteredItems := match asset with
    | some a =>
      if a != "" then items.filter (fun item => item.asset == a) else items
    | none => items
  { items := filteredItems
    nextCursor := records.getLast?.map (fun r => r.paging_token) }

/-- Outcome of one upstream attempt: a raw page, or a thrown error whose
`response.status` is `some s` (an HTTP failure) or `none` (transport error
with no response). -/
inductive UpstreamResult where
  | success (records : List RawRecord)
  | failure (status : Option Nat)
  deriving Repr, DecidableEq

/-- Result of the retry engine: the value returned or raw error re-thrown, the
number of upstream calls made, and the sleeps performed between attempts. -/
structure FetchOutcome where
  result : Except (Option Nat) TransactionResponseDto
  calls : Nat
  sleeps : List Nat
  deriving Repr, DecidableEq

/-- Source check `err.response?.status && err.response.status < 500`: a
present, truthy (nonzero) status below 500 is never retried. -/
def isNonRetryable (status : Option Nat) : Bool :=
  match status with
  | some s => s != 0 && decide (s < 500)
  | none => false

/-- Retry loop of `fetchFromHorizonWithRetry`. `attempt` is the 1-based loop
counter and `rest + 1` the number of attempts still allowed, so `rest = 0`
means `attempt === maxRetries`. The zero-fuel case models the `throw lastError`
after the loop, unreachable for `maxRetries ≥ 1`. -/
def fetchLoop (upstream : Nat → UpstreamResult) (asset : Option String) :
    Nat → Nat → FetchOutcome
  | _attempt, 0 => ⟨Except.error none, 0, []⟩
  | attempt, rest + 1 =>
    match upstream attempt with
    | UpstreamResult.success records =>
        ⟨Except.ok (normalizeRecords records asset), 1, []⟩
    | UpstreamResult.failure status =>
        if isNonRetryable status then ⟨Except.error status, 1, []⟩
        else if rest == 0 then ⟨Except.error status, 1, []⟩
        else
          let out := fetchLoop upstream asset (attempt + 1) rest
          ⟨out.result, out.calls + 1, calculateDelay attempt :: out.sleeps⟩

/-- Source `fetchFromHorizonWithRetry`: run the loop from attempt 1 with
`maxRetries` attempts allowed. -/
def fetchFromHorizonWithRetry (upstream : Nat → UpstreamResult)
    (asset : Option String) : FetchOutcome :=
  fetchLoop upstream asset 1 maxRetries

/-- Entry list of an LRU cache: key, value, and the time the entry was last
set or (for the result cache, which has `updateAgeOnGet: true`) last read.
Capacity eviction is not modelled: no claim scenario approaches the configured
capacities (500 and 1000 entries). -/
abbrev Store (α : Type) := List (String × α × Nat)

/-- Fresh lookup: lru-cache `get` returns an entry only while
`now < setTime + ttl`. -/
def lookupFresh {α : Type} (c : Store α) (ttl now : Nat) (key : String) :
    Option α :=
  match c.find? (fun e => e.1 == key) with
  | some e => if now < e.2.2 + ttl then some e.2.1 else none
  | none => none

/-- lru-cache `set`: replace any entry with the same key, stamped `now`. -/
def setEntry {α : Type} (c : Store α) (key : String) (v : α) (now : Nat) :
    Store α :=
  (key, v, now) :: c.filter (fun e => e.1 != key)

/-- lru-cache `delete`. -/
def deleteEntry {α : Type} (c : Store α) (key : String) : Store α :=
  c.filter (fun e => e.1 != key)

/-- Value stored in `backoffCache`: `{ attempts, lastAttempt }`. -/
structure BackoffInfo where
  attempts : Nat
  lastAttempt : Nat
  deriving Repr, DecidableEq

/-- Mutable state of a `HorizonService` instance: the result cache and the
backoff cache. -/
structure ServiceState where
  cache : Store TransactionResponseDto
  backoff : Store BackoffInfo
  deriving Repr, DecidableEq

/-- Source `updateBackoff`: increment `attempts` (capped at `maxRetries`) when
an entry exists, else create one with `attempts = 1`; stamp `lastAttempt`. -/
def updateBackoff (b : Store BackoffInfo) (key : String) (now : Nat) :
    Store BackoffInfo :=
  let attempts := match lookupFresh b backoffTtl now key with
    | some info => min (info.attempts + 1) maxRetries
    | none => 1
  setEntry b key ⟨attempts, now⟩ now

/-- Classified errors thrown by the service (as `HttpException`s), one
constructor per construction site. `throttled` is the backoff-gate rejection
and carries the remaining wait in milliseconds. -/
inductive ServiceError where
  | throttled (retryAfterMs : Nat)
  | rateLimited
  | upstreamUnavailable
  | badGateway
  | invalidRequest
  | internalError
  deriving Repr, DecidableEq

/-- Caller-facing HTTP status of each classified error. -/
def callerStatus : ServiceError → Nat
  | ServiceError.throttled _ => 503
  | ServiceError.rateLimited => 503
  | ServiceError.upstreamUnavailable => 503
  | ServiceError.badGateway => 502
  | ServiceError.invalidRequest => 400
  | ServiceError.internalError => 500

/-- Source `handleHorizonError`: the switch over `err.response.status`, with
the no-response path mapping to an internal server error. -/
def handleHorizonError (status : Option Nat) : ServiceError :=
  match status with
  | some s =>
      if s = 429 then ServiceError.rateLimited
      else if s = 502 ∨ s = 503 ∨ s = 504 then ServiceError.upstreamUnavailable
      else if s = 500 then ServiceError.badGateway
      else ServiceError.invalidRequest
  | none => ServiceError.internalError

/-- Condition in the `getPayments` catch block deciding whether to record
backoff: `status === 429 || (typeof status === 'number' && status >= 500)`. -/
def shouldRecordBackoff (status : Option Nat) : Bool :=
  match status with
  | some s => s == 429 || decide (500 ≤ s)
  | none => false

/-- Cache key template literal of `getPayments`:
`network:accountId:(asset ?? 'any'):limit:(cursor ?? 'start')`. -/
def mkCacheKey (network accountId : String) (asset : Option String)
    (limit : Nat) (cursor : Option String) : String :=
  network ++ ":" ++ accountId ++ ":" ++ asset.getD ("any") ++ ":" ++
    toString limit ++ ":" ++ cursor.getD ("start")

/-- Observable outcome of one `getPayments` call: the returned value or thrown
classified error, the service state afterwards, and how many upstream requests
the call made. -/
structure CallResult where
  result : Except ServiceError TransactionResponseDto
  state : ServiceState
  upstreamCalls : Nat
  deriving Repr, DecidableEq

/-- Tail of `getPayments` after the cache and backoff gates: run the retry
engine; on success cache the result unless this was a backoff-recovery call
(`wasInBackoff`); on failure record backoff for 429/5xx and classify the
error. -/
def getPaymentsFetchPhase (st : ServiceState) (now : Nat)
    (upstream : Nat → UpstreamResult) (asset : Option String)
    (cacheKey : String) (wasInBackoff : Bool) : CallResult :=
  let out := fetchFromHorizonWithRetry upstream asset
  match out.result with
  | Except.ok result =>
      let st' := if wasInBackoff then st
        else { st with cache := setEntry st.cache cacheKey result now }
      ⟨Except.ok result, st', out.calls⟩
  | Except.error status =>
      let st' := if shouldRecordBackoff status then
          { st with backoff := updateBackoff st.backoff cacheKey now }
        else st
      ⟨Except.error (handleHorizonError status), st', out.calls⟩

/-- Source `getPayments`: cache gate (with `updateAgeOnGet` refresh), backoff
admission gate (throttle while inside the cool-down window; delete the entry
once the window has elapsed), then the fetch phase. -/
def getPayments (network : String) (cacheTtl : Nat) (st : ServiceState)
    (now : Nat) (upstream : Nat → UpstreamResult) (accountId : String)
    (asset : Option String) (limit : Nat) (cursor : Option String) :
    CallResult :=
  let cacheKey := mkCacheKey network accountId asset limit cursor
  match lookupFresh st.cache cacheTtl now cacheKey with
  | some cached =>
      ⟨Except.ok cached,
        { st with cache := setEntry st.cache cacheKey cached now }, 0⟩
  | none =>
    match lookupFresh st.backoff backoffTtl now cacheKey with
    | some info =>
        let timeSince := now - info.lastAttempt
        let delay := calculateDelay info.attempts
        if timeSince < delay then
          ⟨Except.error (ServiceError.throttled (delay - timeSince)), st, 0⟩
        else
          getPaymentsFetchPhase
            { st with backoff := deleteEntry st.backoff cacheKey }
            now upstream asset cacheKey true
    | none => getPaymentsFetchPhase st now upstream asset cacheKey false

/-! Helper lemmas about the retry loop and the stores. -/

theorem isNonRetryable_of_ge500 {s : Nat} (hs : 500 ≤ s) :
    isNonRetryable (some s) = false := by
  simp only [isNonRetryable, Bool.and_eq_false_iff, decide_eq_false_iff_not,
    Nat.not_lt]
  right
  exact hs

theorem fetchLoop_success {upstream : Nat → UpstreamResult}
    {asset : Option String} {a n : Nat} {records : List RawRecord}
    (hup : upstream a = UpstreamResult.success records) :
    fetchLoop upstream asset a (n + 1) =
      ⟨Except.ok (normalizeRecords records asset), 1, []⟩ := by
  simp [fetchLoop, hup]

theorem fetchLoop_nonRetryable {upstream : Nat → UpstreamResult}
    {asset : Option String} {s : Nat} {a n : Nat}
    (hup : upstream a = UpstreamResult.failure (some s))
    (hs : isNonRetryable (some s) = true) :
    fetchLoop upstream asset a (n + 1) = ⟨Except.error (some s), 1, []⟩ := by
  simp [fetchLoop, hup, hs]

theorem fetchLoop_retry_step {upstream : Nat → UpstreamResult}
    {asset : Option String} {a m : Nat} {status : Option Nat}
    (hu : upstream a = UpstreamResult.failure status)
    (h1 : isNonRetryable status = false) :
    fetchLoop upstream asset a (m + 1 + 1) =
      ⟨(fetchLoop upstream asset (a + 1) (m + 1)).result,
        (fetchLoop upstream asset (a + 1) (m + 1)).calls + 1,
        calculateDelay a :: (fetchLoop upstream asset (a + 1) (m + 1)).sleeps⟩ := by
  conv_lhs => unfold fetchLoop
  rw [hu]
  simp [h1]

theorem fetchLoop_allFail {upstream : Nat → UpstreamResult}
    {asset : Option String} {s : Nat}
    (hup : ∀ a, upstream a = UpstreamResult.failure (some s)) (hs : 500 ≤ s) :
    ∀ n a, (fetchLoop upstream asset a (n + 1)).result = Except.error (some s) ∧
      (fetchLoop upstream asset a (n + 1)).calls = n + 1 := by
  intro n
  induction n with
  | zero =>
    intro a
    simp [fetchLoop, hup a, isNonRetryable_of_ge500 hs]
  | succ m ih =>
    intro a
    have h1 := ih (a + 1)
    rw [fetchLoop_retry_step (hup a) (isNonRetryable_of_ge500 hs)]
    refine ⟨h1.1, ?_⟩
    show (fetchLoop upstream asset (a + 1) (m + 1)).calls + 1 = m + 1 + 1
    rw [h1.2]

theorem fetchLoop_sleeps_get {upstream : Nat → UpstreamResult}
    {asset : Option String} :
    ∀ (n a i : Nat), i < (fetchLoop upstream asset a n).sleeps.length →
      (fetchLoop upstream asset a n).sleeps.get? i =
        some (calculateDelay (a + i)) := by
  intro n
  induction n with
  | zero =>
    intro a i h
    simp [fetchLoop] at h
  | succ m ih =>
    intro a i h
    cases hu : upstream a with
    | success records =>
      rw [fetchLoop_success hu] at h
      simp at h
    | failure status =>
      by_cases h1 : isNonRetryable status
      · simp [fetchLoop, hu, h1] at h
      · rw [Bool.not_eq_true] at h1
        cases m with
        | zero => simp [fetchLoop, hu, h1] at h
        | succ k =>
          rw [fetchLoop_retry_step hu h1] at h ⊢
          cases i with
          | zero => simp
          | succ j =>
            simp only [List.length_cons, Nat.add_lt_add_iff_right] at h
            have hgot := ih (a + 1) j h
            simp only [List.get?_cons_succ, hgot]
            rw [show a + (j + 1) = a + 1 + j by omega]

theorem lookupFresh_none_mono {α : Type} {c : Store α} {ttl now now2 : Nat}
    {key : String} (h : lookupFresh c ttl now key = none) (h12 : now ≤ now2) :
    lookupFresh c ttl now2 key = none := by
  unfold lookupFresh at h ⊢
  cases hf : c.find? (fun e => e.1 == key) with
  | none => simp [hf]
  | some e =>
    simp only [hf] at h ⊢
    have hnow : ¬ now < e.2.2 + ttl := by
      intro hc
      rw [if_pos hc] at h
      exact Option.noConfusion h
    rw [if_neg (show ¬ now2 < e.2.2 + ttl by omega)]

theorem lookupFresh_setEntry_same {α : Type} (c : Store α)
    (ttl now now2 : Nat) (key : String) (v : α) (h : now2 < now + ttl) :
    lookupFresh (setEntry c key v now) ttl now2 key = some v := by
  simp [lookupFresh, setEntry, List.find?, h]

theorem filter_setEntry_count {α : Type} (c : Store α) (key : String) (v : α)
    (now : Nat) :
    ((setEntry c key v now).filter (fun e => e.1 == key)).length = 1 := by
  simp only [setEntry, List.filter_cons, BEq.refl, if_pos, List.length_cons]
  rw [List.filter_filter]
  simp

theorem find?_eq_some_pred {α : Type} {p : α → Bool} {l : List α} {a : α}
    (h : l.find? p = some a) : p a = true ∧ a ∈ l := by
  induction l with
  | nil => simp at h
  | cons x xs ih =>
    cases hx : p x with
    | true =>
      rw [List.find?_cons_of_pos _ hx] at h
      injection h with h
      subst h
      exact ⟨hx, List.mem_cons_self _ _⟩
    | false =>
      rw [List.find?_cons_of_neg _ (by simp [hx])] at h
      rcases ih h with ⟨h1, h2⟩
      exact ⟨h1, List.mem_cons_of_mem _ h2⟩

theorem filter_deleteEntry {α : Type} (c : Store α) (key : String) :
    (deleteEntry c key).filter (fun e => e.1 == key) = [] := by
  simp only [deleteEntry, List.filter_filter]
  apply List.filter_eq_nil_iff.mpr
  intro e _
  cases h : e.1 == key <;> simp [h, bne]

theorem lookupFresh_deleteEntry {α : Type} (c : Store α) (ttl now : Nat)
    (key : String) :
    lookupFresh (deleteEntry c key) ttl now key = none := by
  unfold lookupFresh deleteEntry
  cases hf : (c.filter (fun e => e.1 != key)).find? (fun e => e.1 == key) with
  | none => simp [hf]
  | some e =>
    rcases find?_eq_some_pred hf with ⟨h1, h2⟩
    have h3 := (List.mem_filter.mp h2).2
    simp only [beq_iff_eq] at h1
    simp only [bne_iff_ne, ne_eq] at h3
    exact absurd h1 h3

theorem updateBackoff_fresh {b : Store BackoffInfo} {key : String} {now : Nat}
    (hb : lookupFresh b backoffTtl now key = none) :
    updateBackoff b key now = setEntry b key ⟨1, now⟩ now := by
  simp [updateBackoff, hb]

theorem isNonRetryable_true_of_4xx {s : Nat} (h0 : 0 < s) (h5 : s < 500) :
    isNonRetryable (some s) = true := by
  simp only [isNonRetryable, Bool.and_eq_true, ne_eq, bne_iff_ne,
    decide_eq_true_eq]
  omega

theorem shouldRecordBackoff_false_of_4xx {s : Nat} (h5 : s < 500)
    (hne : s ≠ 429) : shouldRecordBackoff (some s) = false := by
  simp only [shouldRecordBackoff, Bool.or_eq_false_iff, beq_eq_false_iff_ne,
    ne_eq, decide_eq_false_iff_not, Nat.not_le]
  omega

theorem handleHorizonError_invalid {s : Nat} (h5 : s < 500) (hne : s ≠ 429) :
    handleHorizonError (some s) = ServiceError.invalidRequest := by
  simp only [handleHorizonError]
  rw [if_neg hne, if_neg (by omega), if_neg (by omega)]

theorem fetch_success_eq (upstream : Nat → UpstreamResult)
    (asset : Option String) {records : List RawRecord}
    (hup : upstream 1 = UpstreamResult.success records) :
    fetchFromHorizonWithRetry upstream asset =
      ⟨Except.ok (normalizeRecords records asset), 1, []⟩ := by
  show fetchLoop upstream asset 1 (2 + 1) = _
  exact fetchLoop_success hup

theorem fetch_nonRetryable_eq (upstream : Nat → UpstreamResult)
    (asset : Option String) {s : Nat}
    (hup : upstream 1 = UpstreamResult.failure (some s))
    (hnr : isNonRetryable (some s) = true) :
    fetchFromHorizonWithRetry upstream asset =
      ⟨Except.error (some s), 1, []⟩ := by
  show fetchLoop upstream asset 1 (2 + 1) = _
  exact fetchLoop_nonRetryable hup hnr

theorem fetch_allFail_projs (upstream : Nat → UpstreamResult)
    (asset : Option String) {s : Nat}
    (hup : ∀ a, upstream a = UpstreamResult.failure (some s)) (hs : 500 ≤ s) :
    (fetchFromHorizonWithRetry upstream asset).result =
        Except.error (some s) ∧
      (fetchFromHorizonWithRetry upstream asset).calls = 3 :=
  fetchLoop_allFail hup hs 2 1

theorem fetchPhase_ok_eq {upstream : Nat → UpstreamResult}
    {asset : Option String} {val : TransactionResponseDto}
    (st : ServiceState) (now : Nat) (cacheKey : String) (wasInBackoff : Bool)
    (hres : (fetchFromHorizonWithRetry upstream asset).result =
      Except.ok val) :
    getPaymentsFetchPhase st now upstream asset cacheKey wasInBackoff =
      ⟨Except.ok val,
        if wasInBackoff then st
          else { st with cache := setEntry st.cache cacheKey val now },
        (fetchFromHorizonWithRetry upstream asset).calls⟩ := by
  simp only [getPaymentsFetchPhase, hres]

theorem fetchPhase_err_eq {upstream : Nat → UpstreamResult}
    {asset : Option String} {status : Option Nat}
    (st : ServiceState) (now : Nat) (cacheKey : String) (wasInBackoff : Bool)
    (hres : (fetchFromHorizonWithRetry upstream asset).result =
      Except.error status) :
    getPaymentsFetchPhase st now upstream asset cacheKey wasInBackoff =
      ⟨Except.error (handleHorizonError status),
        if shouldRecordBackoff status then
          { st with backoff := updateBackoff st.backoff cacheKey now }
        else st,
        (fetchFromHorizonWithRetry upstream asset).calls⟩ := by
  simp only [getPaymentsFetchPhase, hres]

theorem getPayments_fresh_eq (network accountId : String)
    (asset : Option String) (limit : Nat) (cursor : Option String)
    (cacheTtl now : Nat) (st : ServiceState)
    (upstream : Nat → UpstreamResult)
    (hcache : lookupFresh st.cache cacheTtl now
        (mkCacheKey network accountId asset limit cursor) = none)
    (hback : lookupFresh st.backoff backoffTtl now
        (mkCacheKey network accountId asset limit cursor) = none) :
    getPayments network cacheTtl st now upstream accountId asset limit cursor =
      getPaymentsFetchPhase st now upstream asset
        (mkCacheKey network accountId asset limit cursor) false := by
  simp only [getPayments, hcache, hback]

theorem getPayments_recovery_eq (network accountId : String)
    (asset : Option String) (limit : Nat) (cursor : Option String)
    (cacheTtl now : Nat) (st : ServiceState)
    (upstream : Nat → UpstreamResult) (info : BackoffInfo)
    (hcache : lookupFresh st.cache cacheTtl now
        (mkCacheKey network accountId asset limit cursor) = none)
    (hb : lookupFresh st.backoff backoffTtl now
        (mkCacheKey network accountId asset limit cursor) = some info)
    (hel : calculateDelay info.attempts ≤ now - info.lastAttempt) :
    getPayments network cacheTtl st now upstream accountId asset limit cursor =
      getPaymentsFetchPhase
        { st with
          backoff :=
            deleteEntry st.backoff
              (mkCacheKey network accountId asset limit cursor) }
        now upstream asset
        (mkCacheKey network accountId asset limit cursor) true := by
  simp only [getPayments, hcache, hb]
  rw [if_neg (by omega)]

/-! Claim theorems. -/

/-- C10: the cache key is not injective over distinct queries: an absent
assetFilter collides with the literal filter string "any" and an absent cursor
collides with the literal cursor string "start", so the two distinct queries
share one cache entry — demonstrated by a second call with filter "any"
cache-hitting the entry stored by a first call with no filter, with no second
upstream request. -/
theorem C10_cache_key_collision :
    mkCacheKey ("testnet") ("acct") none 20 none =
      mkCacheKey ("testnet") ("acct") (some ("any")) 20 none ∧
    mkCacheKey ("testnet") ("acct") none 20 none =
      mkCacheKey ("testnet") ("acct") none 20 (some ("start")) ∧
    (some ("any") : Option String) ≠ none ∧
    (some ("start") : Option String) ≠ none ∧
    (let st0 : ServiceState := ⟨[], []⟩
     let up : Nat → UpstreamResult := fun _ => UpstreamResult.success []
     let r1 := getPayments ("testnet") 60000 st0 0 up ("acct") none 20 none
     let r2 := getPayments ("testnet") 60000 r1.state 1 up ("acct")
       (some ("any")) 20 none
     r1.upstreamCalls = 1 ∧ r2.upstreamCalls = 0 ∧ r2.result = r1.result) := by
  decide

/-- C7: for every raw page, the returned `nextCursor` equals the paging token
of the last raw record of the page before any filtering, it is absent exactly
when the raw page is empty, and it is exactly what the fetch engine returns on
a successful attempt. -/
theorem C7_nextCursor_last_raw (records : List RawRecord)
    (asset : Option String) :
    (normalizeRecords records asset).nextCursor =
      records.getLast?.map (fun r => r.paging_token) ∧
    ((normalizeRecords records asset).nextCursor = none ↔ records = []) ∧
    (fetchFromHorizonWithRetry (fun _ => UpstreamResult.success records)
        asset).result = Except.ok (normalizeRecords records asset) := by
  refine ⟨rfl, ?_, rfl⟩
  simp [normalizeRecords]

/-- C8 counterexample: the supplied assetFilter "" is falsy in JS, so the
program performs no filtering with it: a page with one native payment yields
the "XLM" item unchanged, so it is not the case that every returned item's
asset equals the supplied filter by exact string comparison. -/
theorem C8_counterexample :
    (normalizeRecords
        [⟨"payment", "10.0", some ("native"), "", "", "t0", "h0", "p0", none⟩]
        (some "")).items =
      [⟨"10.0", "XLM", none, "t0", "h0", "p0"⟩] ∧
    ¬ (∀ item ∈ (normalizeRecords
        [⟨"payment", "10.0", some ("native"), "", "", "t0", "h0", "p0",
          none⟩] (some "")).items, item.asset = "") := by
  decide

/-- C8 (amended): the normalized items are derived exactly from the raw
records whose kind is payment or one of the two path-payment kinds; a native
asset resolves to the fixed symbol "XLM" and an issued asset to
"CODE:ISSUER"; a supplied non-empty assetFilter retains exactly the items
whose asset equals it by exact string comparison, while the empty filter
string (falsy in JS) performs no filtering. -/
theorem C8_normalization (records : List RawRecord) (f : String)
    (hf : f ≠ "") :
    (normalizeRecords records none).items =
      (records.filter isPaymentRecord).map toItem ∧
    (normalizeRecords records (some f)).items =
      ((records.filter isPaymentRecord).map toItem).filter
        (fun item => item.asset == f) ∧
    (normalizeRecords records (some "")).items =
      (records.filter isPaymentRecord).map toItem ∧
    (∀ r : RawRecord, r.asset_type = some ("native") →
      (toItem r).asset = "XLM") ∧
    (∀ (r : RawRecord) (t : String), r.asset_type = some t → t ≠ "native" →
      (toItem r).asset = r.asset_code ++ ":" ++ r.asset_issuer) ∧
    (∀ item ∈ (normalizeRecords records (some f)).items, item.asset = f) := by
  have hft : (f != "") = true := by simpa using hf
  refine ⟨rfl, ?_, rfl, ?_, ?_, ?_⟩
  · simp [normalizeRecords, hft]
  · intro r hr
    simp [toItem, resolveAsset, hr]
  · intro r t hr ht
    simp [toItem, resolveAsset, hr, ht]
  · intro item hitem
    simp only [normalizeRecords, hft, if_true, List.mem_filter,
      beq_iff_eq] at hitem
    exact hitem.2

/-- C8 witness: a non-empty issued-asset filter on a two-payment page keeps
exactly the matching issued-asset item. -/
theorem C8_normalization_witness :
    (normalizeRecords
        [⟨"payment", "5", some ("native"), "", "", "t1", "h1", "p1", none⟩,
         ⟨"payment", "7", some ("credit_alphanum4"), "USDC", "G", "t2", "h2",
           "p2", none⟩]
        (some ("USDC:G"))).items =
      [⟨"7", "USDC:G", none, "t2", "h2", "p2"⟩] :=
  (C8_normalization
      [⟨"payment", "5", some ("native"), "", "", "t1", "h1", "p1", none⟩,
       ⟨"payment", "7", some ("credit_alphanum4"), "USDC", "G", "t2", "h2",
         "p2", none⟩]
      ("USDC:G") (by decide)).2.1

/-- C6: every surfaced failure maps to its fixed caller-facing status: 429 →
RateLimited/503, 500 → BadGateway/502, 502/503/504 →
UpstreamUnavailable/503, any other 4xx → InvalidRequest/400, a transport
failure with no status → InternalError/500; and a request rejected by the
backoff gate yields Throttled/503 carrying the remaining wait, with no
upstream call and unchanged state. -/
theorem C6_error_classification (s : Nat) (h4 : 400 ≤ s) (h5 : s < 500)
    (hne : s ≠ 429) :
    handleHorizonError (some 429) = ServiceError.rateLimited ∧
    callerStatus ServiceError.rateLimited = 503 ∧
    handleHorizonError (some 500) = ServiceError.badGateway ∧
    callerStatus ServiceError.badGateway = 502 ∧
    handleHorizonError (some 502) = ServiceError.upstreamUnavailable ∧
    handleHorizonError (some 503) = ServiceError.upstreamUnavailable ∧
    handleHorizonError (some 504) = ServiceError.upstreamUnavailable ∧
    callerStatus ServiceError.upstreamUnavailable = 503 ∧
    handleHorizonError (some s) = ServiceError.invalidRequest ∧
    callerStatus ServiceError.invalidRequest = 400 ∧
    handleHorizonError none = ServiceError.internalError ∧
    callerStatus ServiceError.internalError = 500 ∧
    (∀ (network : String) (cacheTtl : Nat) (st : ServiceState) (now : Nat)
      (upstream : Nat → UpstreamResult) (accountId : String)
      (asset : Option String) (limit : Nat) (cursor : Option String)
      (info : BackoffInfo),
      lookupFresh st.cache cacheTtl now
          (mkCacheKey network accountId asset limit cursor) = none →
      lookupFresh st.backoff backoffTtl now
          (mkCacheKey network accountId asset limit cursor) = some info →
      now - info.lastAttempt < calculateDelay info.attempts →
      getPayments network cacheTtl st now upstream accountId asset limit
          cursor =
        ⟨Except.error (ServiceError.throttled
            (calculateDelay info.attempts - (now - info.lastAttempt))),
          st, 0⟩ ∧
      callerStatus (ServiceError.throttled
          (calculateDelay info.attempts - (now - info.lastAttempt))) = 503) := by
  refine ⟨rfl, rfl, rfl, rfl, rfl, rfl, rfl, rfl, ?_, rfl, rfl, rfl, ?_⟩
  · simp only [handleHorizonError]
    rw [if_neg hne, if_neg (by omega), if_neg (by omega)]
  · intro network cacheTtl st now upstream accountId asset limit cursor info
      hc hb hlt
    refine ⟨?_, rfl⟩
    simp only [getPayments, hc, hb, if_pos hlt]

theorem getPayments_fresh_err_eq (network accountId : String)
    (asset : Option String) (limit : Nat) (cursor : Option String)
    (cacheTtl now : Nat) (st : ServiceState)
    (upstream : Nat → UpstreamResult) (status : Option Nat)
    (hres : (fetchFromHorizonWithRetry upstream asset).result =
      Except.error status)
    (hsrb : shouldRecordBackoff status = true)
    (hcache : lookupFresh st.cache cacheTtl now
        (mkCacheKey network accountId asset limit cursor) = none)
    (hback : lookupFresh st.backoff backoffTtl now
        (mkCacheKey network accountId asset limit cursor) = none) :
    getPayments network cacheTtl st now upstream accountId asset limit cursor =
      ⟨Except.error (handleHorizonError status),
        { st with
          backoff := setEntry st.backoff
            (mkCacheKey network accountId asset limit cursor) ⟨1, now⟩ now },
        (fetchFromHorizonWithRetry upstream asset).calls⟩ := by
  rw [getPayments_fresh_eq network accountId asset limit cursor cacheTtl now st
      upstream hcache hback,
    fetchPhase_err_eq st now _ false hres, hsrb, updateBackoff_fresh hback]
  simp

/-- C1 counterexample: from a fresh state, a getPayments call whose upstream
attempts all fail with status 500 makes exactly 3 upstream calls but leaves a
BackoffEntry with attempts = 1 rather than attempts = maxRetries (backoff is
recorded once per failed call, not once per attempt); and a call whose
attempts fail with status 429 makes exactly 1 upstream call, not
maxRetries. -/
theorem C1_counterexample :
    (let r := getPayments ("testnet") 60000 ⟨[], []⟩ 0
        (fun _ => UpstreamResult.failure (some 500)) ("acct") none 20 none
     r.upstreamCalls = 3 ∧
     lookupFresh r.state.backoff backoffTtl 0
         (mkCacheKey ("testnet") ("acct") none 20 none) = some ⟨1, 0⟩ ∧
     (1 : Nat) ≠ maxRetries) ∧
    (let r := getPayments ("testnet") 60000 ⟨[], []⟩ 0
        (fun _ => UpstreamResult.failure (some 429)) ("acct") none 20 none
     r.upstreamCalls = 1 ∧ (1 : Nat) ≠ maxRetries) := by
  decide

/-- C1 (amended): for a getPayments call admitted with no prior BackoffEntry
and whose upstream attempts all fail with one retryable status, the engine
makes exactly maxRetries (3) upstream calls when the status is 5xx but
exactly one when it is 429 (429 is non-retryable inside the loop, handled
entirely by the backoff layer), and afterwards exactly one BackoffEntry
exists for the cache key, with attempts = 1. -/
theorem C1_retry_exhaustion (network accountId : String)
    (asset : Option String) (limit : Nat) (cursor : Option String)
    (cacheTtl now : Nat) (st : ServiceState)
    (upstream : Nat → UpstreamResult) (s : Nat)
    (hup : ∀ a, upstream a = UpstreamResult.failure (some s))
    (hs : s = 429 ∨ 500 ≤ s)
    (hcache : lookupFresh st.cache cacheTtl now
        (mkCacheKey network accountId asset limit cursor) = none)
    (hback : lookupFresh st.backoff backoffTtl now
        (mkCacheKey network accountId asset limit cursor) = none) :
    (getPayments network cacheTtl st now upstream accountId asset limit
        cursor).upstreamCalls = (if s = 429 then 1 else maxRetries) ∧
    lookupFresh (getPayments network cacheTtl st now upstream accountId asset
        limit cursor).state.backoff backoffTtl now
        (mkCacheKey network accountId asset limit cursor) = some ⟨1, now⟩ ∧
    ((getPayments network cacheTtl st now upstream accountId asset limit
        cursor).state.backoff.filter
        (fun e =>
          e.1 == mkCacheKey network accountId asset limit cursor)).length
      = 1 := by
  rcases hs with hs | hs
  · subst hs
    have hfe := fetch_nonRetryable_eq upstream asset (hup 1) (by decide)
    rw [getPayments_fresh_err_eq network accountId asset limit cursor cacheTtl
        now st upstream (some 429) (by rw [hfe]) (by decide) hcache hback, hfe]
    refine ⟨by simp, ?_, ?_⟩
    · exact lookupFresh_setEntry_same _ _ _ _ _ _
        (Nat.lt_add_of_pos_right (by decide))
    · exact filter_setEntry_count _ _ _ _
  · have hprojs := fetch_allFail_projs upstream asset hup hs
    rw [getPayments_fresh_err_eq network accountId asset limit cursor cacheTtl
        now st upstream (some s) hprojs.1
        (by
          simp only [shouldRecordBackoff, Bool.or_eq_true, beq_iff_eq,
            decide_eq_true_eq]
          omega)
        hcache hback, hprojs.2]
    refine ⟨?_, ?_, ?_⟩
    · rw [if_neg (show ¬ s = 429 by omega)]
      rfl
    · exact lookupFresh_setEntry_same _ _ _ _ _ _
        (Nat.lt_add_of_pos_right (by decide))
    · exact filter_setEntry_count _ _ _ _

/-- C1 witness at status 500 from the empty state. -/
theorem C1_retry_exhaustion_witness :
    (getPayments ("t") 60000 ⟨[], []⟩ 0
        (fun _ => UpstreamResult.failure (some 500)) ("a") none 20
        none).upstreamCalls = (if (500 : Nat) = 429 then 1 else maxRetries) ∧
    lookupFresh (getPayments ("t") 60000 ⟨[], []⟩ 0
        (fun _ => UpstreamResult.failure (some 500)) ("a") none 20
        none).state.backoff backoffTtl 0
        (mkCacheKey ("t") ("a") none 20 none) = some ⟨1, 0⟩ :=
  ⟨(C1_retry_exhaustion ("t") ("a") none 20 none 60000 0 ⟨[], []⟩
      (fun _ => UpstreamResult.failure (some 500)) 500 (fun _ => rfl)
      (Or.inr (by decide)) rfl rfl).1,
   (C1_retry_exhaustion ("t") ("a") none 20 none 60000 0 ⟨[], []⟩
      (fun _ => UpstreamResult.failure (some 500)) 500 (fun _ => rfl)
      (Or.inr (by decide)) rfl rfl).2.1⟩

/-- C2 counterexample: in a run whose attempts all fail with 500, the
engine's inter-attempt sleeps are exactly [50, 100] — always the bare
exponential delay. The claimed full-jitter sleep admits the draw 50 after
attempt 1 (50 ≤ calculateDelay 1), which would require a 100 ms sleep after
attempt 1, but the engine's sleep there is 50 ms: the deterministic code
never realizes any nonzero jitter draw. -/
theorem C2_counterexample :
    (fetchFromHorizonWithRetry (fun _ => UpstreamResult.failure (some 500))
        none).sleeps = [50, 100] ∧
    calculateDelay 1 = 50 ∧
    specFullJitterSleep 1 50 = 100 ∧
    (50 : Nat) ≤ calculateDelay 1 ∧
    (50 : Nat) ≠ 100 := by
  decide

/-- C2 (amended): between failed retryable attempts the engine sleeps exactly
min(baseDelay · 2^(attempt−1), maxDelay), deterministically and with no
jitter term — the sleep at position i equals min(50 · 2^i, 30000) for every
upstream behaviour — and the backoff gate's admission check uses the same
exponential formula with no jitter, so for fixed state and time a repeated
blocked call returns the identical throttled outcome. -/
theorem C2_deterministic_delay (upstream : Nat → UpstreamResult)
    (asset : Option String) (i : Nat)
    (h : i < (fetchFromHorizonWithRetry upstream asset).sleeps.length) :
    (fetchFromHorizonWithRetry upstream asset).sleeps.get? i =
      some (min (baseDelay * 2 ^ i) maxDelay) ∧
    (∀ (network accountId : String) (cacheTtl now limit : Nat)
      (st : ServiceState) (asset2 cursor : Option String)
      (info : BackoffInfo),
      lookupFresh st.cache cacheTtl now
          (mkCacheKey network accountId asset2 limit cursor) = none →
      lookupFresh st.backoff backoffTtl now
          (mkCacheKey network accountId asset2 limit cursor) = some info →
      now - info.lastAttempt < calculateDelay info.attempts →
      getPayments network cacheTtl
          (getPayments network cacheTtl st now upstream accountId asset2
            limit cursor).state now upstream accountId asset2 limit cursor =
        getPayments network cacheTtl st now upstream accountId asset2 limit
          cursor) := by
  constructor
  · show (fetchLoop upstream asset 1 maxRetries).sleeps.get? i =
      some (min (baseDelay * 2 ^ i) maxDelay)
    rw [fetchLoop_sleeps_get maxRetries 1 i h]
    unfold calculateDelay
    rw [show 1 + i - 1 = i from by omega]
  · intro network accountId cacheTtl now limit st asset2 cursor info hc hb hlt
    have h1 : getPayments network cacheTtl st now upstream accountId asset2
        limit cursor =
        ⟨Except.error (ServiceError.throttled
          (calculateDelay info.attempts - (now - info.lastAttempt))), st, 0⟩ := by
      simp only [getPayments, hc, hb, if_pos hlt]
    rw [h1]
    exact h1

/-- C2 witness: the first sleep of a run with two retries is exactly 50 ms. -/
theorem C2_deterministic_delay_witness :
    (fetchFromHorizonWithRetry (fun _ => UpstreamResult.failure (some 500))
        none).sleeps.get? 0 = some (min (baseDelay * 2 ^ 0) maxDelay) :=
  (C2_deterministic_delay (fun _ => UpstreamResult.failure (some 500)) none 0
    (by decide)).1

/-- C3 counterexample: with a BackoffEntry whose cool-down has elapsed, a call
whose upstream fails with 400 (which never writes backoff state) still leaves
no BackoffEntry for the key: the admission check itself deleted the entry,
although no successful fetch (and hence no clear-after-success) ever
happened. -/
theorem C3_counterexample :
    (let key := mkCacheKey ("testnet") ("acct") none 20 none
     let st : ServiceState := ⟨[], [(key, ⟨1, 0⟩, 0)]⟩
     let r := getPayments ("testnet") 60000 st 50
       (fun _ => UpstreamResult.failure (some 400)) ("acct") none 20 none
     r.upstreamCalls = 1 ∧
     r.result = Except.error ServiceError.invalidRequest ∧
     r.state.backoff.filter (fun e => e.1 == key) = []) := by
  decide

/-- C3 (amended): when the admission gate finds a BackoffEntry whose
cool-down window has elapsed, the gate itself deletes the entry before the
fetch: after a subsequent non-retryable failure (which never writes backoff
state) the final backoff store is exactly the original one with the key
deleted, so no BackoffEntry for the key remains even though no successful
fetch occurred. -/
theorem C3_admission_gate_deletes (network accountId : String)
    (asset : Option String) (limit : Nat) (cursor : Option String)
    (cacheTtl now : Nat) (st : ServiceState)
    (upstream : Nat → UpstreamResult) (info : BackoffInfo) (s : Nat)
    (hup : upstream 1 = UpstreamResult.failure (some s))
    (h0 : 0 < s) (h5 : s < 500) (hne : s ≠ 429)
    (hcache : lookupFresh st.cache cacheTtl now
        (mkCacheKey network accountId asset limit cursor) = none)
    (hb : lookupFresh st.backoff backoffTtl now
        (mkCacheKey network accountId asset limit cursor) = some info)
    (hel : calculateDelay info.attempts ≤ now - info.lastAttempt) :
    (getPayments network cacheTtl st now upstream accountId asset limit
        cursor).state.backoff =
      deleteEntry st.backoff
        (mkCacheKey network accountId asset limit cursor) ∧
    ((getPayments network cacheTtl st now upstream accountId asset limit
        cursor).state.backoff.filter
        (fun e => e.1 == mkCacheKey network accountId asset limit cursor))
      = [] ∧
    (getPayments network cacheTtl st now upstream accountId asset limit
        cursor).upstreamCalls = 1 := by
  have hfe := fetch_nonRetryable_eq upstream asset hup
    (isNonRetryable_true_of_4xx h0 h5)
  rw [getPayments_recovery_eq network accountId asset limit cursor cacheTtl
      now st upstream info hcache hb hel,
    fetchPhase_err_eq _ now _ true (by rw [hfe]),
    shouldRecordBackoff_false_of_4xx h5 hne, hfe]
  refine ⟨by simp, ?_, by simp⟩
  simp only [Bool.false_eq_true, if_false]
  exact filter_deleteEntry _ _

/-- C3 witness: concrete elapsed-backoff call failing upstream with 400. -/
theorem C3_admission_gate_deletes_witness :
    (getPayments ("t") 60000
        ⟨[], [(mkCacheKey ("t") ("a") none 20 none, ⟨1, 0⟩, 0)]⟩ 50
        (fun _ => UpstreamResult.failure (some 400)) ("a") none 20
        none).state.backoff =
      deleteEntry [(mkCacheKey ("t") ("a") none 20 none, ⟨1, 0⟩, 0)]
        (mkCacheKey ("t") ("a") none 20 none) :=
  (C3_admission_gate_deletes ("t") ("a") none 20 none 60000 50
    ⟨[], [(mkCacheKey ("t") ("a") none 20 none, ⟨1, 0⟩, 0)]⟩
    (fun _ => UpstreamResult.failure (some 400)) ⟨1, 0⟩ 400 rfl (by decide)
    (by decide) (by decide) rfl (by decide) (by decide)).1

/-- C4: a successful fetch made by a call that found a pre-existing (elapsed)
BackoffEntry for its key is returned to the caller but not written to the
cache — the cache is left exactly as it was and the immediately following
identical query reaches upstream again — while a successful fetch with no
pre-existing BackoffEntry is stored in the cache. -/
theorem C4_backoff_recovery_cache_skip (network accountId : String)
    (asset : Option String) (limit : Nat) (cursor : Option String)
    (cacheTtl now now2 : Nat) (st : ServiceState)
    (upstream : Nat → UpstreamResult) (records : List RawRecord)
    (httl : 0 < cacheTtl) (h12 : now ≤ now2)
    (hup : upstream 1 = UpstreamResult.success records)
    (hcache : lookupFresh st.cache cacheTtl now
        (mkCacheKey network accountId asset limit cursor) = none) :
    (∀ info : BackoffInfo,
      lookupFresh st.backoff backoffTtl now
          (mkCacheKey network accountId asset limit cursor) = some info →
      calculateDelay info.attempts ≤ now - info.lastAttempt →
      (getPayments network cacheTtl st now upstream accountId asset limit
          cursor).result = Except.ok (normalizeRecords records asset) ∧
      (getPayments network cacheTtl st now upstream accountId asset limit
          cursor).state.cache = st.cache ∧
      (getPayments network cacheTtl
          (getPayments network cacheTtl st now upstream accountId asset limit
            cursor).state
          now2 upstream accountId asset limit cursor).upstreamCalls = 1) ∧
    (lookupFresh st.backoff backoffTtl now
        (mkCacheKey network accountId asset limit cursor) = none →
      (getPayments network cacheTtl st now upstream accountId asset limit
          cursor).result = Except.ok (normalizeRecords records asset) ∧
      lookupFresh (getPayments network cacheTtl st now upstream accountId
          asset limit cursor).state.cache cacheTtl now
          (mkCacheKey network accountId asset limit cursor) =
        some (normalizeRecords records asset)) := by
  have hfe := fetch_success_eq upstream asset hup
  constructor
  · intro info hb hel
    have hr : getPayments network cacheTtl st now upstream accountId asset
        limit cursor =
        ⟨Except.ok (normalizeRecords records asset),
          { st with
            backoff := deleteEntry st.backoff
              (mkCacheKey network accountId asset limit cursor) }, 1⟩ := by
      rw [getPayments_recovery_eq network accountId asset limit cursor
          cacheTtl now st upstream info hcache hb hel,
        fetchPhase_ok_eq _ now _ true (by rw [hfe]), hfe]
      simp
    rw [hr]
    refine ⟨rfl, rfl, ?_⟩
    have hc2 : lookupFresh st.cache cacheTtl now2
        (mkCacheKey network accountId asset limit cursor) = none :=
      lookupFresh_none_mono hcache h12
    show (getPayments network cacheTtl
        ⟨st.cache, deleteEntry st.backoff
          (mkCacheKey network accountId asset limit cursor)⟩
        now2 upstream accountId asset limit cursor).upstreamCalls = 1
    rw [getPayments_fresh_eq network accountId asset limit cursor cacheTtl
        now2 ⟨st.cache, deleteEntry st.backoff
          (mkCacheKey network accountId asset limit cursor)⟩
        upstream hc2 (lookupFresh_deleteEntry _ _ _ _),
      fetchPhase_ok_eq _ now2 _ false (by rw [hfe]), hfe]
  · intro hb
    have hr : getPayments network cacheTtl st now upstream accountId asset
        limit cursor =
        ⟨Except.ok (normalizeRecords records asset),
          { st with
            cache := setEntry st.cache
              (mkCacheKey network accountId asset limit cursor)
              (normalizeRecords records asset) now }, 1⟩ := by
      rw [getPayments_fresh_eq network accountId asset limit cursor cacheTtl
          now st upstream hcache hb,
        fetchPhase_ok_eq _ now _ false (by rw [hfe]), hfe]
      simp
    rw [hr]
    exact ⟨rfl, lookupFresh_setEntry_same _ _ _ _ _ _ (by omega)⟩

/-- C4 witness: fresh-state success is cached. -/
theorem C4_backoff_recovery_cache_skip_witness :
    lookupFresh ((⟨[], []⟩ : ServiceState)).backoff backoffTtl 0
        (mkCacheKey ("t") ("a") none 20 none) = none ∧
    ((getPayments ("t") 60000 ⟨[], []⟩ 0
        (fun _ => UpstreamResult.success []) ("a") none 20 none).result =
        Except.ok (normalizeRecords [] none) ∧
      lookupFresh (getPayments ("t") 60000 ⟨[], []⟩ 0
          (fun _ => UpstreamResult.success []) ("a") none 20
          none).state.cache 60000 0 (mkCacheKey ("t") ("a") none 20 none) =
        some (normalizeRecords [] none)) :=
  ⟨rfl,
   (C4_backoff_recovery_cache_skip ("t") ("a") none 20 none 60000 0 1
      ⟨[], []⟩ (fun _ => UpstreamResult.success []) [] (by decide) (by decide)
      rfl rfl).2 rfl⟩

/-- C5: a first upstream failure with a 4xx status other than 429 makes
exactly one upstream request, leaves the whole service state unchanged (in
particular it creates and updates no BackoffEntry for the key), and
propagates the classified invalid-request error on first occurrence. -/
theorem C5_non_retryable_4xx (network accountId : String)
    (asset : Option String) (limit : Nat) (cursor : Option String)
    (cacheTtl now : Nat) (st : ServiceState)
    (upstream : Nat → UpstreamResult) (s : Nat)
    (hup : upstream 1 = UpstreamResult.failure (some s))
    (h4 : 400 ≤ s) (h5 : s < 500) (hne : s ≠ 429)
    (hcache : lookupFresh st.cache cacheTtl now
        (mkCacheKey network accountId asset limit cursor) = none)
    (hback : lookupFresh st.backoff backoffTtl now
        (mkCacheKey network accountId asset limit cursor) = none) :
    getPayments network cacheTtl st now upstream accountId asset limit
        cursor = ⟨Except.error ServiceError.invalidRequest, st, 1⟩ := by
  have hfe := fetch_nonRetryable_eq upstream asset hup
    (isNonRetryable_true_of_4xx (by omega) h5)
  rw [getPayments_fresh_eq network accountId asset limit cursor cacheTtl now
      st upstream hcache hback,
    fetchPhase_err_eq st now _ false (by rw [hfe]),
    shouldRecordBackoff_false_of_4xx h5 hne, hfe,
    handleHorizonError_invalid h5 hne]
  simp

/-- C5 witness at status 404 from the empty state. -/
theorem C5_non_retryable_4xx_witness :
    getPayments ("t") 60000 ⟨[], []⟩ 0
        (fun _ => UpstreamResult.failure (some 404)) ("a") none 20 none =
      ⟨Except.error ServiceError.invalidRequest, ⟨[], []⟩, 1⟩ :=
  C5_non_retryable_4xx ("t") ("a") none 20 none 60000 0 ⟨[], []⟩
    (fun _ => UpstreamResult.failure (some 404)) 404 rfl (by decide)
    (by decide) (by decide) rfl rfl

/-- C9 counterexample: a first call that recovers from an elapsed backoff
window succeeds, and the identical second call issued right after (well
within the cache TTL, with no intervening failure) still performs an
upstream request: two upstream calls occur across the pair, not one. -/
theorem C9_counterexample :
    (let key := mkCacheKey ("testnet") ("acct") none 20 none
     let st : ServiceState := ⟨[], [(key, ⟨1, 0⟩, 0)]⟩
     let up : Nat → UpstreamResult := fun _ => UpstreamResult.success []
     let r1 := getPayments ("testnet") 60000 st 50 up ("acct") none 20 none
     let r2 := getPayments ("testnet") 60000 r1.state 60 up ("acct") none 20
       none
     r1.result = Except.ok ⟨[], none⟩ ∧ r1.upstreamCalls = 1 ∧
     r2.result = Except.ok ⟨[], none⟩ ∧ r2.upstreamCalls = 1 ∧
     r1.upstreamCalls + r2.upstreamCalls ≠ 1) := by
  decide

/-- C9 (amended): if getPayments succeeds for a query admitted with no
BackoffEntry for its key, a second getPayments with identical arguments
issued within the cache TTL returns the identical QueryResult from the cache
and performs no upstream request — exactly one upstream call across both
calls. -/
theorem C9_cache_idempotence (network accountId : String)
    (asset : Option String) (limit : Nat) (cursor : Option String)
    (cacheTtl now now2 : Nat) (st : ServiceState)
    (upstream : Nat → UpstreamResult) (records : List RawRecord)
    (hup : upstream 1 = UpstreamResult.success records)
    (hcache : lookupFresh st.cache cacheTtl now
        (mkCacheKey network accountId asset limit cursor) = none)
    (hback : lookupFresh st.backoff backoffTtl now
        (mkCacheKey network accountId asset limit cursor) = none)
    (hfresh : now2 < now + cacheTtl) :
    (getPayments network cacheTtl st now upstream accountId asset limit
        cursor).result = Except.ok (normalizeRecords records asset) ∧
    (getPayments network cacheTtl st now upstream accountId asset limit
        cursor).upstreamCalls = 1 ∧
    (getPayments network cacheTtl
        (getPayments network cacheTtl st now upstream accountId asset limit
          cursor).state now2 upstream accountId asset limit cursor).result =
      (getPayments network cacheTtl st now upstream accountId asset limit
        cursor).result ∧
    (getPayments network cacheTtl
        (getPayments network cacheTtl st now upstream accountId asset limit
          cursor).state now2 upstream accountId asset limit
        cursor).upstreamCalls = 0 := by
  have hfe := fetch_success_eq upstream asset hup
  have hr : getPayments network cacheTtl st now upstream accountId asset
      limit cursor =
      ⟨Except.ok (normalizeRecords records asset),
        { st with
          cache := setEntry st.cache
            (mkCacheKey network accountId asset limit cursor)
            (normalizeRecords records asset) now }, 1⟩ := by
    rw [getPayments_fresh_eq network accountId asset limit cursor cacheTtl
        now st upstream hcache hback,
      fetchPhase_ok_eq _ now _ false (by rw [hfe]), hfe]
    simp
  rw [hr]
  have hhit : lookupFresh
      (setEntry st.cache (mkCacheKey network accountId asset limit cursor)
        (normalizeRecords records asset) now) cacheTtl now2
      (mkCacheKey network accountId asset limit cursor) =
      some (normalizeRecords records asset) :=
    lookupFresh_setEntry_same _ _ _ _ _ _ hfresh
  refine ⟨rfl, rfl, ?_, ?_⟩
  · simp only [getPayments, hhit]
  · simp only [getPayments, hhit]

/-- C9 witness: two identical calls from the empty state, one upstream
request in total. -/
theorem C9_cache_idempotence_witness :
    (getPayments ("t") 60000 ⟨[], []⟩ 0 (fun _ => UpstreamResult.success [])
        ("a") none 20 none).upstreamCalls = 1 ∧
    (getPayments ("t") 60000
        (getPayments ("t") 60000 ⟨[], []⟩ 0
          (fun _ => UpstreamResult.success []) ("a") none 20 none).state 1
        (fun _ => UpstreamResult.success []) ("a") none 20
        none).upstreamCalls = 0 :=
  ⟨(C9_cache_idempotence ("t") ("a") none 20 none 60000 0 1 ⟨[], []⟩
      (fun _ => UpstreamResult.success []) [] rfl rfl rfl (by decide)).2.1,
   (C9_cache_idempotence ("t") ("a") none 20 none 60000 0 1 ⟨[], []⟩
      (fun _ => UpstreamResult.success []) [] rfl rfl rfl
      (by decide)).2.2.2⟩

/-- C6 witness at s = 404. -/
theorem C6_error_classification_witness :
    handleHorizonError (some 404) = ServiceError.invalidRequest ∧
    callerStatus ServiceError.invalidRequest = 400 :=
  ⟨(C6_error_classification 404 (by decide) (by decide) (by decide)).2.2.2.2.2.2.2.2.1,
   (C6_error_classification 404 (by decide) (by decide) (by decide)).2.2.2.2.2.2.2.2.2.1⟩

end QiuckEx
